import Mathlib

/-!
Shallow embedding of `CalculatorApp/calculator.py` (UK take-home pay
calculator).  Python floats are modelled by exact rationals `ℚ`; the two
ValueError exceptions the module raises are modelled by the error type `CalcError`
(the spec names them `ConfigurationError` and `UnsupportedPlanError`).
-/

/-- Errors raised by the calculator module.  Both are `ValueError` in the
source; the spec distinguishes them by the point of misuse. -/
inductive CalcError where
  | ConfigurationError : CalcError
  | UnsupportedPlanError : String → CalcError
deriving DecidableEq

-- ======== GLOBAL CONSTANTS / CONFIGURATION ========

/-- Constant `PERSONAL_ALLOWANCE_DEFAULT = 12_570`. -/
def PERSONAL_ALLOWANCE_DEFAULT : ℚ := 12570

/-- Constant `PERSONAL_ALLOWANCE_TAPER_THRESHOLD = 100_000`. -/
def PERSONAL_ALLOWANCE_TAPER_THRESHOLD : ℚ := 100000

/-- Constant `LOWER_MONTHLY` of `NI_THRESHOLDS`. -/
def NI_LOWER_MONTHLY : ℚ := 1048

/-- Constant `UPPER_MONTHLY` of `NI_THRESHOLDS`. -/
def NI_UPPER_MONTHLY : ℚ := 4189

/-- Constant `MAIN_RATE = 0.08` of `NI_THRESHOLDS`. -/
def NI_MAIN_RATE : ℚ := 8 / 100

/-- Constant `UPPER_RATE = 0.02` of `NI_THRESHOLDS`. -/
def NI_UPPER_RATE : ℚ := 2 / 100

/-- Constant `TAX_BANDS`: ordered `(upper_limit, tax_rate)` pairs; `none` stands for
the infinite float upper limit of the source on the last band. -/
def TAX_BANDS : List (Option ℚ × ℚ) :=
  [(some 50270, 20 / 100), (some 125140, 40 / 100), (none, 45 / 100)]

/-- One entry of `STUDENT_LOAN_PLANS`: `rate` and `threshold`.  The source
stores the threshold as a float that can be the infinite float (the No Plan
entry); `threshold_is_inf` records that case and `threshold` is then unused. -/
structure StudentLoanPlan where
  rate : ℚ
  threshold_is_inf : Bool
  threshold : ℚ
deriving DecidableEq

/-- Lookup in the `STUDENT_LOAN_PLANS` dict: Plan 2 has rate 0.09 and
threshold 27_295; No Plan has rate 0.00 and infinite threshold; any other
key is absent. -/
def STUDENT_LOAN_PLANS (plan : String) : Option StudentLoanPlan :=
  if plan = "Plan 2" then some ⟨9 / 100, false, 27295⟩
  else if plan = "No Plan" then some ⟨0, true, 0⟩
  else none

-- ======== USER DATA CLASS ========

/-- The `User` dataclass.  The bill/expense dicts are modelled as association
lists of `(name, amount)`. -/
structure User where
  gross_salary : ℚ
  monthly_bills : List (String × ℚ)
  weekly_expenses : List (String × ℚ)
  pension_contribution_percentage : ℚ
  salary_sacrifice : ℚ
  student_loan_plan : String

-- ======== PERIOD AMOUNTS ========

/-- Default of the `weeks_per_year` parameter of the `PeriodAmounts`
constructor. -/
def WEEKS_PER_YEAR_DEFAULT : ℚ := 52.1429

/-- Type `PeriodAmounts`: an amount stored canonically as `_annual`, together with
the `weeks_per_year` conversion factor fixed at construction. -/
structure PeriodAmounts where
  _annual : ℚ
  _weeks_per_year : ℚ
deriving DecidableEq

/-- Constructor `PeriodAmounts.__init__`: exactly one of `annual`, `monthly`, `weekly`
must be provided (non-`None`), otherwise a `ValueError`
(spec: `ConfigurationError`) is raised; the provided amount is converted to
the canonical annual value.  The final match arm is unreachable when the
count check passes. -/
def PeriodAmounts.init (annual monthly weekly : Option ℚ) (weeks_per_year : ℚ) :
    Except CalcError PeriodAmounts :=
  if [annual, monthly, weekly].countP (fun v => v.isSome) ≠ 1 then
    .error CalcError.ConfigurationError
  else
    match annual, monthly, weekly with
    | some a, _, _ => .ok ⟨a, weeks_per_year⟩
    | none, some m, _ => .ok ⟨m * 12, weeks_per_year⟩
    | none, none, some w => .ok ⟨w * weeks_per_year, weeks_per_year⟩
    | none, none, none => .error CalcError.ConfigurationError

/-- Shorthand for `PeriodAmounts(annual=a)` with the default
`weeks_per_year` (the always-successful path of the constructor). -/
def PeriodAmounts.ofAnnual (a : ℚ) : PeriodAmounts := ⟨a, WEEKS_PER_YEAR_DEFAULT⟩

/-- Shorthand for `PeriodAmounts(monthly=m)` with the default
`weeks_per_year`. -/
def PeriodAmounts.ofMonthly (m : ℚ) : PeriodAmounts :=
  ⟨m * 12, WEEKS_PER_YEAR_DEFAULT⟩

/-- Shorthand for `PeriodAmounts(weekly=w)` with the default
`weeks_per_year`. -/
def PeriodAmounts.ofWeekly (w : ℚ) : PeriodAmounts :=
  ⟨w * WEEKS_PER_YEAR_DEFAULT, WEEKS_PER_YEAR_DEFAULT⟩

/-- Property `annual`. -/
def PeriodAmounts.annual (p : PeriodAmounts) : ℚ := p._annual

/-- Property `monthly`: `annual / 12`. -/
def PeriodAmounts.monthly (p : PeriodAmounts) : ℚ := p._annual / 12

/-- Property `weekly`: `annual / weeks_per_year`. -/
def PeriodAmounts.weekly (p : PeriodAmounts) : ℚ := p._annual / p._weeks_per_year

-- ======== PURE VALUES OF THE CALCULATOR METHODS ========
-- Each `_calculate_*` method of `TakeHomeCalculator`, on a cache miss,
-- computes a value that depends only on `self.user`; these are those values.

/-- Method `_calculate_pension_contribution`:
`gross_salary * pension_contribution_percentage / 100`, annual. -/
def calculate_pension_contribution (u : User) : PeriodAmounts :=
  PeriodAmounts.ofAnnual (u.gross_salary * u.pension_contribution_percentage / 100)

/-- Method `_calculate_salary_sacrifice`: monthly `salary_sacrifice` as a
`PeriodAmounts(monthly=...)`. -/
def calculate_salary_sacrifice (u : User) : PeriodAmounts :=
  PeriodAmounts.ofMonthly u.salary_sacrifice

/-- Method `_calculate_personal_allowance` as a function of `gross_salary`:
above the taper threshold, lose £1 of allowance per £2 of salary above it,
floored at 0; otherwise the default allowance. -/
def calculate_personal_allowance (gross_salary : ℚ) : ℚ :=
  if gross_salary ≥ PERSONAL_ALLOWANCE_TAPER_THRESHOLD then
    max 0 (PERSONAL_ALLOWANCE_DEFAULT -
      (gross_salary - PERSONAL_ALLOWANCE_TAPER_THRESHOLD) / 2)
  else
    PERSONAL_ALLOWANCE_DEFAULT

/-- Method `_calculate_taxable_income`: gross salary minus pension, salary sacrifice
and personal allowance, clamped at 0 before being wrapped as an annual
`PeriodAmounts`.  (The source briefly stores the unclamped value in the cache
field and immediately overwrites it with the clamped `PeriodAmounts`.) -/
def calculate_taxable_income (u : User) : PeriodAmounts :=
  PeriodAmounts.ofAnnual (max 0
    (u.gross_salary -
      ((calculate_pension_contribution u).annual +
        (calculate_salary_sacrifice u).annual) -
      calculate_personal_allowance u.gross_salary))

/-- Band loop of `_calculate_tax`.  Arguments mirror the loop state:
the band list, `remaining`, `annual_tax`, `lower_limit`.  A band with
`none` as upper limit has infinite `band_size`, so any finite `remaining`
falls into it and the loop breaks there (as the source does on the last
band). -/
def taxLoop (personal_allowance : ℚ) :
    List (Option ℚ × ℚ) → ℚ → ℚ → ℚ → ℚ
  | [], _, annual_tax, _ => annual_tax
  | (some upper_limit, rate) :: bands, remaining, annual_tax, lower_limit =>
      if remaining ≤ 0 then annual_tax
      else if remaining ≤ (upper_limit - personal_allowance) - lower_limit then
        annual_tax + remaining * rate
      else
        taxLoop personal_allowance bands
          (remaining - ((upper_limit - personal_allowance) - lower_limit))
          (annual_tax + ((upper_limit - personal_allowance) - lower_limit) * rate)
          (upper_limit - personal_allowance)
  | (none, rate) :: _, remaining, annual_tax, _ =>
      if remaining ≤ 0 then annual_tax else annual_tax + remaining * rate

/-- Method `_calculate_tax` on given annual taxable income and personal allowance:
run the band loop over `TAX_BANDS` starting from tax 0 and lower limit 0. -/
def calculate_tax_annual (annual_taxable_income personal_allowance : ℚ) : ℚ :=
  taxLoop personal_allowance TAX_BANDS annual_taxable_income 0 0

/-- Method `_calculate_tax` for a user. -/
def calculate_tax (u : User) : PeriodAmounts :=
  PeriodAmounts.ofAnnual
    (calculate_tax_annual (calculate_taxable_income u).annual
      (calculate_personal_allowance u.gross_salary))

/-- Method `_calculate_ni_contributions` as a function of `gross_salary`: monthly
salary against the two monthly thresholds. -/
def calculate_ni_contributions (gross_salary : ℚ) : PeriodAmounts :=
  PeriodAmounts.ofAnnual
    (if gross_salary / 12 ≤ NI_LOWER_MONTHLY then 0
     else if gross_salary / 12 ≤ NI_UPPER_MONTHLY then
       NI_MAIN_RATE * (gross_salary - 12 * NI_LOWER_MONTHLY)
     else
       NI_MAIN_RATE * 12 * (NI_UPPER_MONTHLY - NI_LOWER_MONTHLY) +
         NI_UPPER_RATE * (gross_salary - 12 * NI_UPPER_MONTHLY))

/-- Annual student loan repayment for a configured plan:
`max(0, rate * (gross_salary - threshold))`.  For the infinite-threshold
No Plan entry the source computes `gross_salary - inf = -inf`, then
`0.00 * -inf = nan`, and the Python `max(0, nan)` returns its first
argument `0`; so that case yields 0. -/
def studentLoanAnnualOfPlan (p : StudentLoanPlan) (gross_salary : ℚ) : ℚ :=
  if p.threshold_is_inf then 0
  else max 0 (p.rate * (gross_salary - p.threshold))

/-- Method `_calculate_student_loan_repayment`: raises (spec:
`UnsupportedPlanError`) when the plan is not a key of `STUDENT_LOAN_PLANS`,
otherwise the annual repayment for the configured plan. -/
def calculate_student_loan_repayment (u : User) :
    Except CalcError PeriodAmounts :=
  match STUDENT_LOAN_PLANS u.student_loan_plan with
  | none => .error (CalcError.UnsupportedPlanError u.student_loan_plan)
  | some p =>
      .ok (PeriodAmounts.ofAnnual (studentLoanAnnualOfPlan p u.gross_salary))

/-- Method `_calculate_net_income`: gross salary minus pre-tax deductions
(pension + salary sacrifice), tax, NI and student loan.  Propagates the
student-loan error. -/
def calculate_net_income (u : User) : Except CalcError PeriodAmounts :=
  match calculate_student_loan_repayment u with
  | .error e => .error e
  | .ok sl =>
      .ok (PeriodAmounts.ofAnnual
        (u.gross_salary -
          ((calculate_pension_contribution u).annual +
            (calculate_salary_sacrifice u).annual) -
          (calculate_tax u).annual -
          (calculate_ni_contributions u.gross_salary).annual -
          sl.annual))

/-- List `bills_pa` of `_calculate_spendable_income`: each monthly bill
amount as a `PeriodAmounts(monthly=...)`. -/
def bills_pa (u : User) : List PeriodAmounts :=
  u.monthly_bills.map (fun b => PeriodAmounts.ofMonthly b.2)

/-- Value `total_bills_pa`: the sum of the annual values of the bills, wrapped as
an annual `PeriodAmounts`. -/
def total_bills_pa (u : User) : PeriodAmounts :=
  PeriodAmounts.ofAnnual (((bills_pa u).map (fun b => b.annual)).sum)

/-- Method `_calculate_spendable_income`: net income minus total bills, annual. -/
def calculate_spendable_income (u : User) : Except CalcError PeriodAmounts :=
  match calculate_net_income u with
  | .error e => .error e
  | .ok ni =>
      .ok (PeriodAmounts.ofAnnual (ni.annual - (total_bills_pa u).annual))

/-- List `expenses_pa` of `_calculate_spendable_income_after_expenses`:
each weekly expense amount as a `PeriodAmounts(weekly=...)`. -/
def expenses_pa (u : User) : List PeriodAmounts :=
  u.weekly_expenses.map (fun e => PeriodAmounts.ofWeekly e.2)

/-- Value `total_expenses_pa`: the sum of the annual values of the expenses,
wrapped as an annual `PeriodAmounts`. -/
def total_expenses_pa (u : User) : PeriodAmounts :=
  PeriodAmounts.ofAnnual (((expenses_pa u).map (fun e => e.annual)).sum)

/-- Method `_calculate_spendable_income_after_expenses`: the difference is taken in
weekly terms and the result is constructed as a weekly `PeriodAmounts`. -/
def calculate_spendable_income_after_expenses (u : User) :
    Except CalcError PeriodAmounts :=
  match calculate_spendable_income u with
  | .error e => .error e
  | .ok sp =>
      .ok (PeriodAmounts.ofWeekly (sp.weekly - (total_expenses_pa u).weekly))

-- ======== THE STATEFUL TAKE-HOME CALCULATOR ========
-- `TakeHomeCalculator.__init__` sets every cache field to `None`; each
-- `_calculate_*` method fills its field on first call and returns the cached
-- value afterwards.  The mutable instance is modelled by explicit state
-- passing: every method takes the state and returns (result, new state).
-- A raised exception leaves the mutations made so far in place, so fallible
-- methods return `Except CalcError _ × CalcState` with the state at the
-- point of the raise.

/-- The fields of a `TakeHomeCalculator` instance. -/
structure CalcState where
  user : User
  _pension_contribution : Option PeriodAmounts
  _salary_sacrifice : Option PeriodAmounts
  _personal_allowance : Option ℚ
  _taxable_income : Option PeriodAmounts
  _tax : Option PeriodAmounts
  _ni_contributions : Option PeriodAmounts
  _student_loan_repayment : Option PeriodAmounts
  _net_income : Option PeriodAmounts
  _bills : Option (List PeriodAmounts)
  _total_bills : Option PeriodAmounts
  _spendable_income : Option PeriodAmounts
  _expenses : Option (List PeriodAmounts)
  _total_expenses : Option PeriodAmounts
  _spendable_income_after_expenses : Option PeriodAmounts

/-- State after `TakeHomeCalculator.__init__(user)`: every cache field is
`None`. -/
def initState (u : User) : CalcState :=
  ⟨u, none, none, none, none, none, none, none, none, none, none, none,
    none, none, none⟩

/-- Memoized `_calculate_pension_contribution`. -/
def calcPensionContribution (s : CalcState) : PeriodAmounts × CalcState :=
  match s._pension_contribution with
  | some v => (v, s)
  | none =>
      let v := calculate_pension_contribution s.user
      (v, { s with _pension_contribution := some v })

/-- Memoized `_calculate_salary_sacrifice`. -/
def calcSalarySacrifice (s : CalcState) : PeriodAmounts × CalcState :=
  match s._salary_sacrifice with
  | some v => (v, s)
  | none =>
      let v := calculate_salary_sacrifice s.user
      (v, { s with _salary_sacrifice := some v })

/-- Memoized `_calculate_personal_allowance`. -/
def calcPersonalAllowance (s : CalcState) : ℚ × CalcState :=
  match s._personal_allowance with
  | some v => (v, s)
  | none =>
      let v := calculate_personal_allowance s.user.gross_salary
      (v, { s with _personal_allowance := some v })

/-- Memoized `_calculate_taxable_income`: calls pension, salary-sacrifice and
personal-allowance methods first (possibly filling their caches). -/
def calcTaxableIncome (s : CalcState) : PeriodAmounts × CalcState :=
  match s._taxable_income with
  | some v => (v, s)
  | none =>
      let r1 := calcPensionContribution s
      let r2 := calcSalarySacrifice r1.2
      let r3 := calcPersonalAllowance r2.2
      let v := PeriodAmounts.ofAnnual (max 0
        (r3.2.user.gross_salary - (r1.1.annual + r2.1.annual) - r3.1))
      (v, { r3.2 with _taxable_income := some v })

/-- Memoized `_calculate_tax`. -/
def calcTax (s : CalcState) : PeriodAmounts × CalcState :=
  match s._tax with
  | some v => (v, s)
  | none =>
      let r1 := calcTaxableIncome s
      let r2 := calcPersonalAllowance r1.2
      let v := PeriodAmounts.ofAnnual (calculate_tax_annual r1.1.annual r2.1)
      (v, { r2.2 with _tax := some v })

/-- Memoized `_calculate_ni_contributions`. -/
def calcNiContributions (s : CalcState) : PeriodAmounts × CalcState :=
  match s._ni_contributions with
  | some v => (v, s)
  | none =>
      let v := calculate_ni_contributions s.user.gross_salary
      (v, { s with _ni_contributions := some v })

/-- Memoized `_calculate_student_loan_repayment`: on a cache miss with an
unknown plan the `ValueError` propagates and the cache field stays `None`. -/
def calcStudentLoanRepayment (s : CalcState) :
    Except CalcError PeriodAmounts × CalcState :=
  match s._student_loan_repayment with
  | some v => (.ok v, s)
  | none =>
      match calculate_student_loan_repayment s.user with
      | .error e => (.error e, s)
      | .ok v => (.ok v, { s with _student_loan_repayment := some v })

/-- Memoized `_calculate_net_income`: calls pension, salary sacrifice, tax,
NI, then student loan; an error from the latter propagates with the earlier
caches already filled. -/
def calcNetIncome (s : CalcState) : Except CalcError PeriodAmounts × CalcState :=
  match s._net_income with
  | some v => (.ok v, s)
  | none =>
      let r1 := calcPensionContribution s
      let r2 := calcSalarySacrifice r1.2
      let r3 := calcTax r2.2
      let r4 := calcNiContributions r3.2
      match calcStudentLoanRepayment r4.2 with
      | (.error e, s5) => (.error e, s5)
      | (.ok sl, s5) =>
          let v := PeriodAmounts.ofAnnual
            (s5.user.gross_salary - (r1.1.annual + r2.1.annual) -
              r3.1.annual - r4.1.annual - sl.annual)
          (.ok v, { s5 with _net_income := some v })

/-- Memoized `_calculate_spendable_income`: fills `_bills` and `_total_bills`
before asking for net income, so an error there leaves those two set. -/
def calcSpendableIncome (s : CalcState) :
    Except CalcError PeriodAmounts × CalcState :=
  match s._spendable_income with
  | some v => (.ok v, s)
  | none =>
      let bills := bills_pa s.user
      let tb := total_bills_pa s.user
      let s1 := { s with _bills := some bills, _total_bills := some tb }
      match calcNetIncome s1 with
      | (.error e, s2) => (.error e, s2)
      | (.ok ni, s2) =>
          let v := PeriodAmounts.ofAnnual (ni.annual - tb.annual)
          (.ok v, { s2 with _spendable_income := some v })

/-- Memoized `_calculate_spendable_income_after_expenses`: fills `_expenses`
and `_total_expenses`, then takes the weekly difference and stores it as a
weekly-constructed `PeriodAmounts`. -/
def calcSpendableIncomeAfterExpenses (s : CalcState) :
    Except CalcError PeriodAmounts × CalcState :=
  match s._spendable_income_after_expenses with
  | some v => (.ok v, s)
  | none =>
      let exps := expenses_pa s.user
      let te := total_expenses_pa s.user
      let s1 := { s with _expenses := some exps, _total_expenses := some te }
      match calcSpendableIncome s1 with
      | (.error e, s2) => (.error e, s2)
      | (.ok sp, s2) =>
          let v := PeriodAmounts.ofWeekly (sp.weekly - te.weekly)
          (.ok v, { s2 with _spendable_income_after_expenses := some v })

/-- Method `calculate_all`: runs every `_calculate_*` method in source order; the
first raised error propagates, leaving the mutations made so far. -/
def calculate_all (s : CalcState) : Except CalcError Unit × CalcState :=
  let r1 := calcPensionContribution s
  let r2 := calcSalarySacrifice r1.2
  let r3 := calcPersonalAllowance r2.2
  let r4 := calcTaxableIncome r3.2
  let r5 := calcTax r4.2
  let r6 := calcNiContributions r5.2
  match calcStudentLoanRepayment r6.2 with
  | (.error e, s7) => (.error e, s7)
  | (.ok _, s7) =>
      match calcNetIncome s7 with
      | (.error e, s8) => (.error e, s8)
      | (.ok _, s8) =>
          match calcSpendableIncome s8 with
          | (.error e, s9) => (.error e, s9)
          | (.ok _, s9) =>
              match calcSpendableIncomeAfterExpenses s9 with
              | (.error e, s10) => (.error e, s10)
              | (.ok _, s10) => (.ok (), s10)

-- ======== SPEC-SIDE AND AUXILIARY DEFINITIONS ========

/-- Piecewise-linear description of the banding algorithm, written from the
wording of the spec for comparison with `calculate_tax_annual`: slope 20% up
to taxable income `50270 - allowance`, then 40% up to `125140 - allowance`,
then 45% without upper bound. -/
def taxBandedSpec (personal_allowance x : ℚ) : ℚ :=
  if x ≤ 50270 - personal_allowance then (20 / 100) * x
  else if x ≤ 125140 - personal_allowance then
    (20 / 100) * (50270 - personal_allowance) +
      (40 / 100) * (x - (50270 - personal_allowance))
  else
    (20 / 100) * (50270 - personal_allowance) +
      (40 / 100) * ((125140 - personal_allowance) - (50270 - personal_allowance)) +
      (45 / 100) * (x - (125140 - personal_allowance))

/-- Annual net income on the successful path, for the configured plan `p`
of the user: the value cached in `_net_income` by `calculate_all`. -/
def netIncomeOf (u : User) (p : StudentLoanPlan) : PeriodAmounts :=
  PeriodAmounts.ofAnnual
    (u.gross_salary -
      ((calculate_pension_contribution u).annual +
        (calculate_salary_sacrifice u).annual) -
      (calculate_tax u).annual -
      (calculate_ni_contributions u.gross_salary).annual -
      (PeriodAmounts.ofAnnual (studentLoanAnnualOfPlan p u.gross_salary)).annual)

/-- Value cached in `_spendable_income` by `calculate_all` on the successful
path. -/
def spendableIncomeOf (u : User) (p : StudentLoanPlan) : PeriodAmounts :=
  PeriodAmounts.ofAnnual ((netIncomeOf u p).annual - (total_bills_pa u).annual)

/-- Value cached in `_spendable_income_after_expenses` by `calculate_all` on
the successful path. -/
def spendableAfterOf (u : User) (p : StudentLoanPlan) : PeriodAmounts :=
  PeriodAmounts.ofWeekly
    ((spendableIncomeOf u p).weekly - (total_expenses_pa u).weekly)

/-- Calculator state after a successful `calculate_all` run on a fresh
instance, when the plan of the user is configured as `p`. -/
def finalStateOf (u : User) (p : StudentLoanPlan) : CalcState :=
  { user := u
    _pension_contribution := some (calculate_pension_contribution u)
    _salary_sacrifice := some (calculate_salary_sacrifice u)
    _personal_allowance := some (calculate_personal_allowance u.gross_salary)
    _taxable_income := some (calculate_taxable_income u)
    _tax := some (calculate_tax u)
    _ni_contributions := some (calculate_ni_contributions u.gross_salary)
    _student_loan_repayment :=
      some (PeriodAmounts.ofAnnual (studentLoanAnnualOfPlan p u.gross_salary))
    _net_income := some (netIncomeOf u p)
    _bills := some (bills_pa u)
    _total_bills := some (total_bills_pa u)
    _spendable_income := some (spendableIncomeOf u p)
    _expenses := some (expenses_pa u)
    _total_expenses := some (total_expenses_pa u)
    _spendable_income_after_expenses := some (spendableAfterOf u p) }

/-- Calculator state after a `calculate_all` run that raised on the
student-loan step: the six earlier caches are filled, the rest are not. -/
def raisedStateOf (u : User) : CalcState :=
  { user := u
    _pension_contribution := some (calculate_pension_contribution u)
    _salary_sacrifice := some (calculate_salary_sacrifice u)
    _personal_allowance := some (calculate_personal_allowance u.gross_salary)
    _taxable_income := some (calculate_taxable_income u)
    _tax := some (calculate_tax u)
    _ni_contributions := some (calculate_ni_contributions u.gross_salary)
    _student_loan_repayment := none
    _net_income := none
    _bills := none
    _total_bills := none
    _spendable_income := none
    _expenses := none
    _total_expenses := none
    _spendable_income_after_expenses := none }

-- ======== CONCRETE PROFILES ========

/-- Profile contributing 100% of gross salary to pension. -/
def userFullPension : User := ⟨40000, [], [], 100, 0, "No Plan"⟩

/-- Profile with zero salary and a monthly rent bill of 100. -/
def userBillsOnly : User := ⟨0, [("rent", 100)], [], 0, 0, "No Plan"⟩

/-- Profile with zero salary and a weekly groceries expense of 10. -/
def userExpensesOnly : User := ⟨0, [], [("groceries", 10)], 0, 0, "No Plan"⟩

/-- Profile selecting a student loan plan that is not configured. -/
def userPlanX : User := ⟨40000, [], [], 0, 0, "Plan X"⟩

/-- Scenario profile of the spec: gross salary 40_000, no deductions, no
bills or expenses, plan No Plan. -/
def user40k : User := ⟨40000, [], [], 0, 0, "No Plan"⟩

-- ======== HELPER LEMMAS ========

@[simp] theorem PeriodAmounts.annual_ofAnnual (a : ℚ) :
    (PeriodAmounts.ofAnnual a).annual = a := rfl

@[simp] theorem PeriodAmounts.monthly_ofAnnual (a : ℚ) :
    (PeriodAmounts.ofAnnual a).monthly = a / 12 := rfl

@[simp] theorem PeriodAmounts.weekly_ofAnnual (a : ℚ) :
    (PeriodAmounts.ofAnnual a).weekly = a / WEEKS_PER_YEAR_DEFAULT := rfl

@[simp] theorem PeriodAmounts.annual_ofMonthly (m : ℚ) :
    (PeriodAmounts.ofMonthly m).annual = m * 12 := rfl

@[simp] theorem PeriodAmounts.annual_ofWeekly (w : ℚ) :
    (PeriodAmounts.ofWeekly w).annual = w * WEEKS_PER_YEAR_DEFAULT := rfl

theorem weeks_per_year_default_ne_zero : WEEKS_PER_YEAR_DEFAULT ≠ 0 := by
  norm_num [WEEKS_PER_YEAR_DEFAULT]

@[simp] theorem PeriodAmounts.weekly_ofWeekly (w : ℚ) :
    (PeriodAmounts.ofWeekly w).weekly = w := by
  unfold PeriodAmounts.ofWeekly PeriodAmounts.weekly
  exact mul_div_cancel_right₀ w weeks_per_year_default_ne_zero

-- ======== CLAIM THEOREMS ========

/-- C3: the personal allowance is the default 12_570 below a gross salary of
100_000; at or above it equals `max 0 (12570 - (gross - 100000) / 2)`; it is
non-increasing in gross salary above 100_000; and it is exactly 0 whenever
gross salary is at least 125_140. -/
theorem C3_personal_allowance :
    (∀ g : ℚ, g < 100000 → calculate_personal_allowance g = 12570) ∧
    (∀ g : ℚ, 100000 ≤ g →
      calculate_personal_allowance g = max 0 (12570 - (g - 100000) / 2)) ∧
    (∀ g g2 : ℚ, 100000 ≤ g → g ≤ g2 →
      calculate_personal_allowance g2 ≤ calculate_personal_allowance g) ∧
    (∀ g : ℚ, 125140 ≤ g → calculate_personal_allowance g = 0) := by
  unfold calculate_personal_allowance PERSONAL_ALLOWANCE_DEFAULT
    PERSONAL_ALLOWANCE_TAPER_THRESHOLD
  refine ⟨fun g hg => ?_, fun g hg => ?_, fun g g2 hg hgg => ?_, fun g hg => ?_⟩
  · rw [if_neg (by linarith)]
  · rw [if_pos (by linarith)]
  · rw [if_pos (by linarith), if_pos (by linarith)]
    exact max_le_max le_rfl (by linarith)
  · rw [if_pos (by linarith)]
    exact max_eq_left (by linarith)

/-- Witness for C3 at concrete gross salaries. -/
theorem C3_personal_allowance_witness :
    calculate_personal_allowance 99999 = 12570 ∧
    calculate_personal_allowance 110000 = max 0 (12570 - (110000 - 100000) / 2) ∧
    calculate_personal_allowance 120000 ≤ calculate_personal_allowance 110000 ∧
    calculate_personal_allowance 150000 = 0 :=
  ⟨C3_personal_allowance.1 99999 (by norm_num),
   C3_personal_allowance.2.1 110000 (by norm_num),
   C3_personal_allowance.2.2.1 110000 120000 (by norm_num) (by norm_num),
   C3_personal_allowance.2.2.2 150000 (by norm_num)⟩

/-- C5: the taxable income line item equals
`max 0 (gross - pension - sacrifice - allowance)` and is never negative. -/
theorem C5_taxable_income :
    ∀ u : User,
      calculate_taxable_income u = PeriodAmounts.ofAnnual (max 0
        (u.gross_salary - (calculate_pension_contribution u).annual -
          (calculate_salary_sacrifice u).annual -
          calculate_personal_allowance u.gross_salary)) ∧
      0 ≤ (calculate_taxable_income u).annual := by
  intro u
  constructor
  · unfold calculate_taxable_income
    congr 1
    ring_nf
  · unfold calculate_taxable_income
    simp only [PeriodAmounts.annual_ofAnnual]
    exact le_max_left _ _

/-- C4: NI contributions follow the monthly-threshold cases on gross monthly
salary, are 0 up to an annual salary of 12_576, and equal
`8% * (gross - 12576)` from 12_576 up to 50_268. -/
theorem C4_ni_contributions :
    (∀ g : ℚ, g / 12 ≤ 1048 →
      calculate_ni_contributions g = PeriodAmounts.ofAnnual 0) ∧
    (∀ g : ℚ, 1048 < g / 12 → g / 12 ≤ 4189 →
      calculate_ni_contributions g =
        PeriodAmounts.ofAnnual ((8 / 100) * (g - 12 * 1048))) ∧
    (∀ g : ℚ, 4189 < g / 12 →
      calculate_ni_contributions g =
        PeriodAmounts.ofAnnual
          ((8 / 100) * 12 * (4189 - 1048) + (2 / 100) * (g - 12 * 4189))) ∧
    (∀ g : ℚ, g ≤ 12576 → (calculate_ni_contributions g).annual = 0) ∧
    (∀ g : ℚ, 12576 ≤ g → g ≤ 50268 →
      (calculate_ni_contributions g).annual = (8 / 100) * (g - 12576)) := by
  unfold calculate_ni_contributions NI_LOWER_MONTHLY NI_UPPER_MONTHLY
    NI_MAIN_RATE NI_UPPER_RATE
  refine ⟨fun g hg => ?_, fun g hg1 hg2 => ?_, fun g hg => ?_,
    fun g hg => ?_, fun g hg1 hg2 => ?_⟩
  · rw [if_pos (by linarith)]
  · rw [if_neg (by linarith), if_pos (by linarith)]
  · rw [if_neg (by linarith), if_neg (by linarith)]
  · rw [if_pos (by linarith)]
    rfl
  · rcases eq_or_lt_of_le hg1 with h | h
    · rw [if_pos (by rw [← h]; norm_num)]
      rw [← h]
      norm_num
    · rw [if_neg (by linarith), if_pos (by linarith)]
      simp only [PeriodAmounts.annual_ofAnnual]
      ring

/-- Witness for C4 at concrete gross salaries. -/
theorem C4_ni_contributions_witness :
    calculate_ni_contributions 12000 = PeriodAmounts.ofAnnual 0 ∧
    calculate_ni_contributions 40000 =
      PeriodAmounts.ofAnnual ((8 / 100) * (40000 - 12 * 1048)) ∧
    calculate_ni_contributions 60000 =
      PeriodAmounts.ofAnnual
        ((8 / 100) * 12 * (4189 - 1048) + (2 / 100) * (60000 - 12 * 4189)) ∧
    (calculate_ni_contributions 12000).annual = 0 ∧
    (calculate_ni_contributions 40000).annual = (8 / 100) * (40000 - 12576) :=
  ⟨C4_ni_contributions.1 12000 (by norm_num),
   C4_ni_contributions.2.1 40000 (by norm_num) (by norm_num),
   C4_ni_contributions.2.2.1 60000 (by norm_num),
   C4_ni_contributions.2.2.2.1 12000 (by norm_num),
   C4_ni_contributions.2.2.2.2 40000 (by norm_num) (by norm_num)⟩

/-- C6: computing the student loan repayment errors exactly for plan names
outside the configured set, returns `max 0 (9% * (gross - 27295))` for
Plan 2, and returns 0 for No Plan at every gross salary. -/
theorem C6_student_loan :
    (∀ u : User, (∃ e, calculate_student_loan_repayment u = .error e) ↔
      (u.student_loan_plan ≠ "Plan 2" ∧ u.student_loan_plan ≠ "No Plan")) ∧
    (∀ u : User, u.student_loan_plan = "Plan 2" →
      calculate_student_loan_repayment u =
        .ok (PeriodAmounts.ofAnnual
          (max 0 ((9 / 100) * (u.gross_salary - 27295))))) ∧
    (∀ u : User, u.student_loan_plan = "No Plan" →
      calculate_student_loan_repayment u = .ok (PeriodAmounts.ofAnnual 0)) := by
  unfold calculate_student_loan_repayment STUDENT_LOAN_PLANS
    studentLoanAnnualOfPlan
  refine ⟨fun u => ?_, fun u hu => ?_, fun u hu => ?_⟩
  · by_cases h1 : u.student_loan_plan = "Plan 2" <;>
      by_cases h2 : u.student_loan_plan = "No Plan" <;>
      simp [h1, h2]
  · simp [hu]
  · simp [hu]

/-- Witness for C6 at concrete profiles. -/
theorem C6_student_loan_witness :
    (∃ e, calculate_student_loan_repayment userPlanX = .error e) ∧
    calculate_student_loan_repayment user40k = .ok (PeriodAmounts.ofAnnual 0) :=
  ⟨(C6_student_loan.1 userPlanX).mpr (by constructor <;> decide),
   C6_student_loan.2.2 user40k rfl⟩

/-- C8: `PeriodAmounts` construction fails with `ConfigurationError` exactly
when the number of supplied period arguments differs from one; with exactly
one argument it succeeds with `monthly = annual / 12` and
`weekly = annual / weeks_per_year`; and `PeriodAmounts(annual=1200)` has
monthly view 100 and weekly view `1200 / 52.1429`. -/
theorem C8_period_amounts_init :
    (∀ (a m w : Option ℚ) (wpy : ℚ),
      PeriodAmounts.init a m w wpy = .error CalcError.ConfigurationError ↔
        [a, m, w].countP (fun v => v.isSome) ≠ 1) ∧
    (∀ (a m w : Option ℚ) (wpy : ℚ),
      [a, m, w].countP (fun v => v.isSome) = 1 →
        ∃ p, PeriodAmounts.init a m w wpy = .ok p ∧
          p.monthly = p.annual / 12 ∧ p.weekly = p.annual / wpy) ∧
    (∃ p, PeriodAmounts.init (some 1200) none none WEEKS_PER_YEAR_DEFAULT =
        .ok p ∧ p.monthly = 100 ∧ p.weekly = 1200 / WEEKS_PER_YEAR_DEFAULT) := by
  refine ⟨fun a m w wpy => ?_, fun a m w wpy h => ?_, ?_⟩
  · rcases a with _ | a <;> rcases m with _ | m <;> rcases w with _ | w <;>
      simp [PeriodAmounts.init]
  · rcases a with _ | a <;> rcases m with _ | m <;> rcases w with _ | w <;>
      simp_all [PeriodAmounts.init, PeriodAmounts.monthly,
        PeriodAmounts.weekly, PeriodAmounts.annual]
  · refine ⟨PeriodAmounts.ofAnnual 1200, by simp [PeriodAmounts.init,
      PeriodAmounts.ofAnnual], by norm_num [PeriodAmounts.monthly,
      PeriodAmounts.ofAnnual], rfl⟩

/-- Witness for C8 at concrete constructions: no argument and two arguments
fail, one argument succeeds. -/
theorem C8_period_amounts_init_witness :
    PeriodAmounts.init none none none WEEKS_PER_YEAR_DEFAULT =
      .error CalcError.ConfigurationError ∧
    PeriodAmounts.init (some 1200) (some 100) none WEEKS_PER_YEAR_DEFAULT =
      .error CalcError.ConfigurationError ∧
    (∃ p, PeriodAmounts.init none (some 100) none WEEKS_PER_YEAR_DEFAULT =
      .ok p ∧ p.monthly = p.annual / 12 ∧ p.weekly = p.annual / WEEKS_PER_YEAR_DEFAULT) :=
  ⟨(C8_period_amounts_init.1 none none none WEEKS_PER_YEAR_DEFAULT).mpr
      (by decide),
   (C8_period_amounts_init.1 (some 1200) (some 100) none
      WEEKS_PER_YEAR_DEFAULT).mpr (by decide),
   C8_period_amounts_init.2.1 none (some 100) none WEEKS_PER_YEAR_DEFAULT
      (by decide)⟩

/-- C10: net income, spendable income and spendable income after expenses
are not clamped at zero: concrete non-negative profiles make each strictly
negative, while taxable income and the student loan repayment stay clamped
at zero on such profiles. -/
theorem C10_no_negative_clamp :
    (∃ v, calculate_net_income userFullPension = .ok v ∧ v.annual < 0) ∧
    (∃ v, calculate_spendable_income userBillsOnly = .ok v ∧ v.annual < 0) ∧
    (∃ v, calculate_spendable_income_after_expenses userExpensesOnly = .ok v ∧
      v.annual < 0) ∧
    0 ≤ (calculate_taxable_income userFullPension).annual ∧
    calculate_student_loan_repayment userFullPension =
      .ok (PeriodAmounts.ofAnnual 0) := by
  refine ⟨⟨_, rfl, ?_⟩, ⟨_, rfl, ?_⟩, ⟨_, rfl, ?_⟩, ?_, rfl⟩ <;>
    norm_num [userFullPension, userBillsOnly, userExpensesOnly,
      calculate_pension_contribution, calculate_salary_sacrifice,
      calculate_taxable_income, calculate_personal_allowance,
      calculate_tax, calculate_tax_annual, TAX_BANDS, taxLoop,
      calculate_ni_contributions, studentLoanAnnualOfPlan,
      PeriodAmounts.ofAnnual, PeriodAmounts.ofMonthly, PeriodAmounts.ofWeekly,
      PeriodAmounts.annual, PeriodAmounts.weekly,
      NI_LOWER_MONTHLY, NI_UPPER_MONTHLY, NI_MAIN_RATE, NI_UPPER_RATE,
      PERSONAL_ALLOWANCE_DEFAULT, PERSONAL_ALLOWANCE_TAPER_THRESHOLD,
      WEEKS_PER_YEAR_DEFAULT, total_bills_pa, bills_pa,
      total_expenses_pa, expenses_pa]

theorem tax_eq_taxBandedSpec (a x : ℚ) (ha : a ≤ 12570) (hx : 0 ≤ x) :
    calculate_tax_annual x a = taxBandedSpec a x := by
  unfold calculate_tax_annual TAX_BANDS taxBandedSpec
  simp only [taxLoop]
  split_ifs <;> first | ring1 | linarith

theorem taxBandedSpec_mono (a : ℚ) :
    ∀ x y : ℚ, 0 ≤ x → x ≤ y → taxBandedSpec a x ≤ taxBandedSpec a y := by
  intro x y hx hxy
  unfold taxBandedSpec
  split_ifs <;> linarith

theorem taxBandedSpec_lipschitz (a : ℚ) :
    ∀ x y : ℚ, 0 ≤ x → x ≤ y →
      taxBandedSpec a y - taxBandedSpec a x ≤ (45 / 100) * (y - x) := by
  intro x y hx hxy
  unfold taxBandedSpec
  split_ifs <;> linarith

/-- C2: for a fixed personal allowance in the producible range, the banding
algorithm, as a function of taxable income on `[0, ∞)`, coincides with the
piecewise-linear function of slopes 20%, 40%, 45% breaking at
`50270 - allowance` and `125140 - allowance` (final band unbounded), is
non-decreasing, and is 45%-Lipschitz (hence continuous); and every value the
allowance computation produces lies in that range. -/
theorem C2_tax_banding (a : ℚ) (_ha0 : 0 ≤ a)
    (ha : a ≤ PERSONAL_ALLOWANCE_DEFAULT) :
    (∀ g : ℚ, 0 ≤ calculate_personal_allowance g ∧
      calculate_personal_allowance g ≤ PERSONAL_ALLOWANCE_DEFAULT) ∧
    (∀ x : ℚ, 0 ≤ x → calculate_tax_annual x a = taxBandedSpec a x) ∧
    (∀ x y : ℚ, 0 ≤ x → x ≤ y →
      calculate_tax_annual x a ≤ calculate_tax_annual y a) ∧
    (∀ x y : ℚ, 0 ≤ x → 0 ≤ y →
      |calculate_tax_annual y a - calculate_tax_annual x a| ≤
        (45 / 100) * |y - x|) := by
  have ha' : a ≤ 12570 := by
    simpa [PERSONAL_ALLOWANCE_DEFAULT] using ha
  refine ⟨fun g => ?_, fun x hx => tax_eq_taxBandedSpec a x ha' hx,
    fun x y hx hxy => ?_, fun x y hx hy => ?_⟩
  · unfold calculate_personal_allowance PERSONAL_ALLOWANCE_DEFAULT
      PERSONAL_ALLOWANCE_TAPER_THRESHOLD
    split_ifs with h
    · exact ⟨le_max_left _ _, max_le (by norm_num) (by linarith)⟩
    · exact ⟨by norm_num, le_rfl⟩
  · rw [tax_eq_taxBandedSpec a x ha' hx,
      tax_eq_taxBandedSpec a y ha' (hx.trans hxy)]
    exact taxBandedSpec_mono a x y hx hxy
  · have key : ∀ v z : ℚ, 0 ≤ v → v ≤ z →
        |calculate_tax_annual z a - calculate_tax_annual v a| ≤
          (45 / 100) * |z - v| := by
      intro v z hv hvz
      rw [tax_eq_taxBandedSpec a z ha' (hv.trans hvz),
        tax_eq_taxBandedSpec a v ha' hv,
        abs_of_nonneg (sub_nonneg.mpr (taxBandedSpec_mono a v z hv hvz)),
        abs_of_nonneg (sub_nonneg.mpr hvz)]
      exact taxBandedSpec_lipschitz a v z hv hvz
    rcases le_total x y with h | h
    · exact key x y hx h
    · rw [abs_sub_comm, abs_sub_comm y x]
      exact key y x hy h

/-- Witness for C2 at allowance 12_570 and taxable income 27_430 (the 40k
scenario of the spec, where the tax is 5_486). -/
theorem C2_tax_banding_witness :
    calculate_tax_annual 27430 12570 = taxBandedSpec 12570 27430 ∧
    taxBandedSpec 12570 27430 = 5486 :=
  ⟨(C2_tax_banding 12570 (by norm_num)
      (by norm_num [PERSONAL_ALLOWANCE_DEFAULT])).2.1 27430 (by norm_num),
   by norm_num [taxBandedSpec]⟩
theorem calculate_all_ok_state (u : User) (p : StudentLoanPlan)
    (hp : STUDENT_LOAN_PLANS u.student_loan_plan = some p) :
    calculate_all (initState u) = (.ok (), finalStateOf u p) := by
  simp only [calculate_all, initState, calcPensionContribution,
    calcSalarySacrifice, calcPersonalAllowance, calcTaxableIncome, calcTax,
    calcNiContributions, calcStudentLoanRepayment, calcNetIncome,
    calcSpendableIncome, calcSpendableIncomeAfterExpenses,
    calculate_student_loan_repayment, hp, finalStateOf, netIncomeOf,
    spendableIncomeOf, spendableAfterOf, calculate_taxable_income,
    calculate_tax]

theorem calculate_all_error_state (u : User)
    (hp : STUDENT_LOAN_PLANS u.student_loan_plan = none) :
    calculate_all (initState u) =
      (.error (CalcError.UnsupportedPlanError u.student_loan_plan),
        raisedStateOf u) := by
  simp only [calculate_all, initState, calcPensionContribution,
    calcSalarySacrifice, calcPersonalAllowance, calcTaxableIncome, calcTax,
    calcNiContributions, calcStudentLoanRepayment,
    calculate_student_loan_repayment, hp, raisedStateOf,
    calculate_taxable_income, calculate_tax]

/-- C1: on a profile with a supported student loan plan, `calculate_all`
succeeds and the cached annual net income equals gross salary minus the
cached annual pension contribution, salary sacrifice, tax, NI contributions
and student loan repayment. -/
theorem C1_net_income (u : User) (p : StudentLoanPlan)
    (hp : STUDENT_LOAN_PLANS u.student_loan_plan = some p) :
    ∃ s : CalcState, calculate_all (initState u) = (.ok (), s) ∧
      ∃ pens sac tax ni sl net : PeriodAmounts,
        s._pension_contribution = some pens ∧
        s._salary_sacrifice = some sac ∧
        s._tax = some tax ∧
        s._ni_contributions = some ni ∧
        s._student_loan_repayment = some sl ∧
        s._net_income = some net ∧
        net.annual = u.gross_salary - pens.annual - sac.annual - tax.annual -
          ni.annual - sl.annual := by
  refine ⟨finalStateOf u p, calculate_all_ok_state u p hp,
    _, _, _, _, _, _, rfl, rfl, rfl, rfl, rfl, rfl, ?_⟩
  simp only [finalStateOf, netIncomeOf, PeriodAmounts.annual_ofAnnual]
  ring

/-- Witness for C1 at the 40k scenario profile. -/
theorem C1_net_income_witness :
    STUDENT_LOAN_PLANS user40k.student_loan_plan = some ⟨0, true, 0⟩ ∧
    (∃ s : CalcState, calculate_all (initState user40k) = (.ok (), s) ∧
      ∃ pens sac tax ni sl net : PeriodAmounts,
        s._pension_contribution = some pens ∧
        s._salary_sacrifice = some sac ∧
        s._tax = some tax ∧
        s._ni_contributions = some ni ∧
        s._student_loan_repayment = some sl ∧
        s._net_income = some net ∧
        net.annual = user40k.gross_salary - pens.annual - sac.annual -
          tax.annual - ni.annual - sl.annual) :=
  ⟨by decide, C1_net_income user40k ⟨0, true, 0⟩ (by decide)⟩

/-- Counterexample to C7 as stated: on the concrete profile with the
unsupported plan Plan X, `calculate_all` raises, yet the calculator state
does hold computed line items (the pension contribution cache is filled), so
its state is not as if no computation had occurred. -/
theorem C7_counterexample :
    (calculate_all (initState userPlanX)).1 =
      .error (CalcError.UnsupportedPlanError ("Plan X")) ∧
    (calculate_all (initState userPlanX)).2._pension_contribution ≠ none := by
  have h := calculate_all_error_state userPlanX (by decide)
  rw [h]
  exact ⟨rfl, by simp [raisedStateOf]⟩

/-- C7 amended: when the plan is unsupported, `calculate_all` raises and no
results are produced, but the line items computed before the failing step
(pension contribution, salary sacrifice, personal allowance, taxable income,
tax, NI contributions) remain cached, while the student loan repayment and
every later line item remain unset. -/
theorem C7_error_partial_state (u : User)
    (hp : STUDENT_LOAN_PLANS u.student_loan_plan = none) :
    ∃ s : CalcState,
      calculate_all (initState u) =
        (.error (CalcError.UnsupportedPlanError u.student_loan_plan), s) ∧
      s._pension_contribution = some (calculate_pension_contribution u) ∧
      s._salary_sacrifice = some (calculate_salary_sacrifice u) ∧
      s._personal_allowance = some (calculate_personal_allowance u.gross_salary) ∧
      s._taxable_income = some (calculate_taxable_income u) ∧
      s._tax = some (calculate_tax u) ∧
      s._ni_contributions = some (calculate_ni_contributions u.gross_salary) ∧
      s._student_loan_repayment = none ∧
      s._net_income = none ∧
      s._bills = none ∧
      s._total_bills = none ∧
      s._spendable_income = none ∧
      s._expenses = none ∧
      s._total_expenses = none ∧
      s._spendable_income_after_expenses = none :=
  ⟨raisedStateOf u, calculate_all_error_state u hp, rfl, rfl, rfl, rfl, rfl,
    rfl, rfl, rfl, rfl, rfl, rfl, rfl, rfl, rfl⟩

/-- Witness for the amended C7 at the Plan X profile. -/
theorem C7_error_partial_state_witness :
    STUDENT_LOAN_PLANS userPlanX.student_loan_plan = none ∧
    (∃ s : CalcState,
      calculate_all (initState userPlanX) =
        (.error (CalcError.UnsupportedPlanError userPlanX.student_loan_plan),
          s) ∧
      s._pension_contribution =
        some (calculate_pension_contribution userPlanX) ∧
      s._salary_sacrifice = some (calculate_salary_sacrifice userPlanX) ∧
      s._personal_allowance =
        some (calculate_personal_allowance userPlanX.gross_salary) ∧
      s._taxable_income = some (calculate_taxable_income userPlanX) ∧
      s._tax = some (calculate_tax userPlanX) ∧
      s._ni_contributions =
        some (calculate_ni_contributions userPlanX.gross_salary) ∧
      s._student_loan_repayment = none ∧
      s._net_income = none ∧
      s._bills = none ∧
      s._total_bills = none ∧
      s._spendable_income = none ∧
      s._expenses = none ∧
      s._total_expenses = none ∧
      s._spendable_income_after_expenses = none) :=
  ⟨by decide, C7_error_partial_state userPlanX (by decide)⟩

/-- C9: the expenses total is the sum of the weekly expense amounts
multiplied by the weeks-per-year factor, and the spendable income after
expenses is built as a weekly `PeriodAmounts` from the weekly difference;
in exact arithmetic its annual view is the annual spendable income minus
the annual expenses total. -/
theorem C9_spendable_after_expenses (u : User) (sl : PeriodAmounts)
    (hsl : calculate_student_loan_repayment u = .ok sl) :
    (total_expenses_pa u).annual =
      (u.weekly_expenses.map (fun e => e.2 * WEEKS_PER_YEAR_DEFAULT)).sum ∧
    ∃ sp, calculate_spendable_income u = .ok sp ∧
      calculate_spendable_income_after_expenses u =
        .ok (PeriodAmounts.ofWeekly
          (sp.weekly - (total_expenses_pa u).weekly)) ∧
      (PeriodAmounts.ofWeekly
          (sp.weekly - (total_expenses_pa u).weekly)).annual =
        sp.annual - (total_expenses_pa u).annual := by
  constructor
  · simp [total_expenses_pa, expenses_pa, List.map_map, Function.comp_def,
      PeriodAmounts.annual, PeriodAmounts.ofAnnual, PeriodAmounts.ofWeekly]
  · unfold calculate_spendable_income_after_expenses
      calculate_spendable_income calculate_net_income
    rw [hsl]
    refine ⟨_, rfl, rfl, ?_⟩
    have hW := weeks_per_year_default_ne_zero
    simp only [PeriodAmounts.ofWeekly, PeriodAmounts.ofAnnual,
      PeriodAmounts.annual, PeriodAmounts.weekly, total_expenses_pa]
    field_simp

/-- Witness for C9 at the expenses-only profile. -/
theorem C9_spendable_after_expenses_witness :
    calculate_student_loan_repayment userExpensesOnly =
      .ok (PeriodAmounts.ofAnnual 0) ∧
    ((total_expenses_pa userExpensesOnly).annual =
      (userExpensesOnly.weekly_expenses.map
        (fun e => e.2 * WEEKS_PER_YEAR_DEFAULT)).sum ∧
    ∃ sp, calculate_spendable_income userExpensesOnly = .ok sp ∧
      calculate_spendable_income_after_expenses userExpensesOnly =
        .ok (PeriodAmounts.ofWeekly
          (sp.weekly - (total_expenses_pa userExpensesOnly).weekly)) ∧
      (PeriodAmounts.ofWeekly
          (sp.weekly - (total_expenses_pa userExpensesOnly).weekly)).annual =
        sp.annual - (total_expenses_pa userExpensesOnly).annual) :=
  ⟨by rfl,
   C9_spendable_after_expenses userExpensesOnly (PeriodAmounts.ofAnnual 0)
     (by rfl)⟩
